import Mathlib

/-!
Verification of the municipal-health dashboard (`app.py`).

The script's pipeline is embedded shallowly:
* `carregar_dados_completos` — the synthetic dataset generator, parameterised
  by the raw values delivered by the (seeded) pseudo-random number generator;
* `df_filtrado` — the sidebar filter stage (boolean masking);
* quantile cohorts, means, correlations and the size-bucket classification
  (`porte`) of the metrics stage.

Machine floats are modelled by `PFloat` (a rational carrying the IEEE special
values NaN and ±infinity that pandas/numpy produce on degenerate statistics);
random draws are modelled by explicit streams of raw values, converted to the
ranges the numpy calls request.
-/

namespace SaudeMunicipal

/-- The five regions of `np.random.choice(['Norte', 'Nordeste', 'Sudeste',
'Sul', 'Centro-Oeste'])` in `app.py` line 80. -/
inductive Regiao where
  | Norte
  | Nordeste
  | Sudeste
  | Sul
  | CentroOeste
deriving DecidableEq, Repr

/-- One row of the DataFrame built by `carregar_dados_completos`
(`app.py` lines 73-112), with the derived columns included. -/
structure Municipio where
  codigo_ibge : ℕ
  municipio : String
  populacao_total : ℕ
  populacao_60_mais : ℕ
  pib_per_capita : ℚ
  idh : ℚ
  regiao : Regiao
  densidade_demografica : ℚ
  percentual_idosos : ℚ
  internacoes_por_1000 : ℚ
  procedimentos_por_1000 : ℚ
  gasto_internacao_per_capita : ℚ
  procedimentos_alta_complexidade : ℚ
deriving DecidableEq, Repr

/-- A draw of `np.random.randint(lo, hi)`: the raw entropy `r` is mapped into
the half-open range `[lo, hi)`. -/
def randintVal (lo hi : ℕ) (r : ℕ) : ℕ := lo + r % (hi - lo)

/-- A draw of `np.random.uniform(lo, hi)`: the raw entropy `u` is mapped into
`[lo, hi)` through its fractional part. -/
def uniformVal (lo hi : ℚ) (u : ℚ) : ℚ := lo + (hi - lo) * Int.fract u

/-- A draw of `np.random.normal(0, sigma)`: `sigma` times a raw standard
normal sample `z`. -/
def normalVal (sigma : ℚ) (z : ℚ) : ℚ := sigma * z

/-- A draw of `np.random.choice` over the five-element region list. -/
def regiaoOfNat (r : ℕ) : Regiao :=
  match r % 5 with
  | 0 => .Norte
  | 1 => .Nordeste
  | 2 => .Sudeste
  | 3 => .Sul
  | _ => .CentroOeste

/-- The raw values delivered by the seeded PRNG to each vectorised numpy call
of `carregar_dados_completos`, one stream per call, indexed by row. -/
structure RawDraws where
  populacao_total : ℕ → ℕ
  populacao_60_mais : ℕ → ℕ
  pib_per_capita : ℕ → ℚ
  idh : ℕ → ℚ
  regiao : ℕ → ℕ
  densidade_demografica : ℕ → ℚ
  ruido_internacoes : ℕ → ℚ
  ruido_procedimentos : ℕ → ℚ
  ruido_gasto : ℕ → ℚ

/-- Row `i` of the DataFrame built by `carregar_dados_completos`
(`app.py` lines 73-112): base columns are the numpy draws mapped to their
requested ranges, derived columns follow the formulas of lines 85-112. -/
def registro (d : RawDraws) (i : ℕ) : Municipio :=
  let pt := randintVal 10000 800000 (d.populacao_total i)
  let p60 := randintVal 1000 150000 (d.populacao_60_mais i)
  let pib := uniformVal 8000 45000 (d.pib_per_capita i)
  let idhv := uniformVal (1/2) (9/10) (d.idh i)
  let reg := regiaoOfNat (d.regiao i)
  let dens := uniformVal 10 500 (d.densidade_demografica i)
  let pct := ((p60 : ℚ) / (pt : ℚ)) * 100
  let intern := pct * 2 + normalVal 10 (d.ruido_internacoes i) + pib / 1000
  let proc := pib / 200 + normalVal 20 (d.ruido_procedimentos i) + pct * (3/2)
  let gasto := intern * 50 + normalVal 100 (d.ruido_gasto i)
  let alta := pib / 300 + pct * 2
  { codigo_ibge := 100000 + i
    municipio := "Município " ++ toString (i + 1)
    populacao_total := pt
    populacao_60_mais := p60
    pib_per_capita := pib
    idh := idhv
    regiao := reg
    densidade_demografica := dens
    percentual_idosos := pct
    internacoes_por_1000 := intern
    procedimentos_por_1000 := proc
    gasto_internacao_per_capita := gasto
    procedimentos_alta_complexidade := alta }

/-- `n_municipios = 200` (`app.py` line 70). -/
def n_municipios : ℕ := 200

/-- The full dataset of `carregar_dados_completos`: `n` rows. -/
def carregar_dados_completos (n : ℕ) (d : RawDraws) : List Municipio :=
  (List.range n).map (registro d)

/-- Conversion of one raw stream value to raw integer entropy. -/
def ratToNat (q : ℚ) : ℕ := q.num.toNat

/-- The seeded PRNG serves one linear stream of raw values; the generator's
numpy calls consume it in blocks, in the program order of `app.py`
lines 76-105: `populacao_total` (positions `0..n-1`), `populacao_60_mais`
(`n..2n-1`), `pib_per_capita` (`2n..3n-1`), `idh` (`3n..4n-1`), `regiao`
(`4n..5n-1`), `densidade_demografica` (`5n..6n-1`), then the three noise
columns (`6n..7n-1`, `7n..8n-1`, `8n..9n-1`). -/
def rawOfStream (n : ℕ) (s : ℕ → ℚ) : RawDraws where
  populacao_total := fun i => ratToNat (s i)
  populacao_60_mais := fun i => ratToNat (s (n + i))
  pib_per_capita := fun i => s (2 * n + i)
  idh := fun i => s (3 * n + i)
  regiao := fun i => ratToNat (s (4 * n + i))
  densidade_demografica := fun i => s (5 * n + i)
  ruido_internacoes := fun i => s (6 * n + i)
  ruido_procedimentos := fun i => s (7 * n + i)
  ruido_gasto := fun i => s (8 * n + i)

/-- The generator run against a seeded linear stream of raw draws. -/
def carregar_stream (n : ℕ) (s : ℕ → ℚ) : List Municipio :=
  carregar_dados_completos n (rawOfStream n s)

/-- The boolean mask of `app.py` lines 144-150: region membership and the two
inclusive numeric ranges, all conjoined. -/
def passaFiltro (regioes : List Regiao) (faixa_idosos faixa_pib : ℚ × ℚ)
    (m : Municipio) : Bool :=
  decide (m.regiao ∈ regioes) &&
  decide (faixa_idosos.1 ≤ m.percentual_idosos) &&
  decide (m.percentual_idosos ≤ faixa_idosos.2) &&
  decide (faixa_pib.1 ≤ m.pib_per_capita) &&
  decide (m.pib_per_capita ≤ faixa_pib.2)

/-- `df_filtrado` (`app.py` lines 144-150). -/
def df_filtrado (df : List Municipio) (regioes : List Regiao)
    (faixa_idosos faixa_pib : ℚ × ℚ) : List Municipio :=
  df.filter (passaFiltro regioes faixa_idosos faixa_pib)

/-- A pandas/numpy float64 value as the metrics stage observes it: a finite
value (here exact, as a rational) or one of the special values NaN, +inf,
-inf that degenerate statistics produce. -/
inductive PFloat where
  | num (q : ℚ)
  | posinf
  | neginf
  | nan
deriving DecidableEq, Repr

/-- IEEE-754 `<=` as numpy evaluates it: any comparison with NaN is false,
-inf is below and +inf above every non-NaN value. -/
def PFloat.ble : PFloat → PFloat → Bool
  | .nan, _ => false
  | _, .nan => false
  | .num a, .num b => decide (a ≤ b)
  | .num _, .posinf => true
  | .posinf, .num _ => false
  | .posinf, .posinf => true
  | .neginf, _ => true
  | .posinf, .neginf => false
  | .num _, .neginf => false

/-- IEEE-754 `<` as numpy evaluates it. -/
def PFloat.blt : PFloat → PFloat → Bool
  | .nan, _ => false
  | _, .nan => false
  | .num a, .num b => decide (a < b)
  | .num _, .posinf => true
  | .posinf, _ => false
  | .neginf, .neginf => false
  | .neginf, _ => true
  | .num _, .neginf => false

/-- IEEE-754 division as numpy float64 performs it: a finite nonzero value
divided by zero is a signed infinity, `0/0` and any NaN operand give NaN. -/
def PFloat.div : PFloat → PFloat → PFloat
  | .nan, _ => .nan
  | _, .nan => .nan
  | .num a, .num b =>
      if b = 0 then
        if a = 0 then .nan else if 0 < a then .posinf else .neginf
      else .num (a / b)
  | .num _, .posinf => .num 0
  | .num _, .neginf => .num 0
  | .posinf, .num b => if 0 ≤ b then .posinf else .neginf
  | .neginf, .num b => if 0 ≤ b then .neginf else .posinf
  | .posinf, .posinf => .nan
  | .posinf, .neginf => .nan
  | .neginf, .posinf => .nan
  | .neginf, .neginf => .nan

/-- `Series.mean()`: NaN on an empty column, otherwise the arithmetic mean. -/
def meanPF (l : List ℚ) : PFloat :=
  if l = [] then .nan else .num (l.sum / l.length)

/-- The column values sorted ascending (pandas sorts before interpolating a
quantile). -/
def sortQ (l : List ℚ) : List ℚ :=
  l.insertionSort (fun a b => a ≤ b)

/-- The linear-interpolation quantile of a nonempty column, as
`Series.quantile(p)` computes it: with sorted values `v` and
`h = p * (n - 1)`, the result is `v j + (h - j) * (v (j+1) - v j)` where
`j = floor h`. -/
def quantileQ (p : ℚ) (l : List ℚ) : ℚ :=
  let s := sortQ l
  let h := p * ((s.length - 1 : ℕ) : ℚ)
  let j := (Int.floor h).toNat
  let g := h - (j : ℚ)
  let vj := s.getD j 0
  let vj1 := s.getD (j + 1) vj
  vj + g * (vj1 - vj)

/-- `Series.quantile(p)`: NaN on an empty column. -/
def quantilePF (p : ℚ) (l : List ℚ) : PFloat :=
  if l = [] then .nan else .num (quantileQ p l)

/-- `limite_alto = df_filtrado['percentual_idosos'].quantile(0.75)`
(`app.py` line 358). -/
def limite_alto (df : List Municipio) : PFloat :=
  quantilePF (3/4) (df.map Municipio.percentual_idosos)

/-- `limite_baixo = df_filtrado['percentual_idosos'].quantile(0.25)`
(`app.py` line 359). -/
def limite_baixo (df : List Municipio) : PFloat :=
  quantilePF (1/4) (df.map Municipio.percentual_idosos)

/-- `alto_idosos = df_filtrado[df_filtrado['percentual_idosos'] >= limite_alto]`
(`app.py` line 361). -/
def alto_idosos (df : List Municipio) : List Municipio :=
  df.filter (fun m => PFloat.ble (limite_alto df) (.num m.percentual_idosos))

/-- `baixo_idosos = df_filtrado[df_filtrado['percentual_idosos'] <= limite_baixo]`
(`app.py` line 362). -/
def baixo_idosos (df : List Municipio) : List Municipio :=
  df.filter (fun m => PFloat.ble (.num m.percentual_idosos) (limite_baixo df))

/-- `alto_idosos['internacoes_por_1000'].mean()` (`app.py` lines 367, 426). -/
def media_internacoes_alto (df : List Municipio) : PFloat :=
  meanPF ((alto_idosos df).map Municipio.internacoes_por_1000)

/-- `baixo_idosos['internacoes_por_1000'].mean()` (`app.py` lines 368, 426). -/
def media_internacoes_baixo (df : List Municipio) : PFloat :=
  meanPF ((baixo_idosos df).map Municipio.internacoes_por_1000)

/-- The top/bottom ratio
`alto_idosos['internacoes_por_1000'].mean() / baixo_idosos['internacoes_por_1000'].mean()`
(`app.py` line 426). -/
def razao_internacoes (df : List Municipio) : PFloat :=
  PFloat.div (media_internacoes_alto df) (media_internacoes_baixo df)

/-- Centered sum of squares of a column (the numerator of its variance). -/
def somaQuadDesvios (l : List ℚ) : ℚ :=
  let mu := l.sum / l.length
  (l.map (fun x => (x - mu) ^ 2)).sum

/-- Centered sum of products of two aligned columns (the numerator of their
covariance). -/
def somaProdDesvios (xs ys : List ℚ) : ℚ :=
  let mx := xs.sum / xs.length
  let my := ys.sum / ys.length
  ((xs.zip ys).map (fun p => (p.1 - mx) * (p.2 - my))).sum

/-- `Series.corr` (`app.py` lines 213, 408-410): the Pearson correlation is
NaN exactly when there are fewer than 2 rows or one column has zero variance;
otherwise it is the finite value `sxy / sqrt (sxx * syy)`, whose square root
leaves ℚ, so the embedding returns the defining triple `(sxy, sxx, syy)`
(`none` is the NaN outcome, which is all the claims inspect). -/
def correlacao (xs ys : List ℚ) : Option (ℚ × ℚ × ℚ) :=
  if xs.length < 2 ∨ somaQuadDesvios xs = 0 ∨ somaQuadDesvios ys = 0 then none
  else some (somaProdDesvios xs ys, somaQuadDesvios xs, somaQuadDesvios ys)

/-- The size-bucket labels of `pd.cut` (`app.py` line 317). -/
inductive Porte where
  | Pequeno
  | Medio
  | Grande
  | Metropole
deriving DecidableEq, Repr

/-- The size-bucket classification
`pd.cut(populacao_total, bins=[0, 20000, 100000, 500000, inf], labels=...)`
(`app.py` lines 314-318): pandas' default `right=True` makes every bin
left-open and right-closed, and a value outside every bin (here only 0)
gets the null label. -/
def porte (pt : ℕ) : Option Porte :=
  if pt = 0 then none
  else if pt ≤ 20000 then some .Pequeno
  else if pt ≤ 100000 then some .Medio
  else if pt ≤ 500000 then some .Grande
  else some .Metropole

/-! ### Spec-side formulas (for the refinement claim about the derived columns)

These definitions follow the specification's words, to be compared with the
columns the embedded generator computes. -/

/-- Following the spec: `pct_elderly` = 100 × population_elderly / population_total. -/
def spec_percentual (p60 pt : ℚ) : ℚ := 100 * p60 / pt

/-- Following the spec: `hospitalizations_per_1000 = 2·pct_elderly + N(0,10) + gdp_per_capita/1000`. -/
def spec_internacoes (pct pib ruido : ℚ) : ℚ := 2 * pct + ruido + pib / 1000

/-- Following the spec: `procedures_per_1000 = gdp_per_capita/200 + N(0,20) + 1.5·pct_elderly`. -/
def spec_procedimentos (pib pct ruido : ℚ) : ℚ := pib / 200 + ruido + 3/2 * pct

/-- Following the spec: `hospitalization_spend_per_capita = 50·hospitalizations_per_1000 + N(0,100)`. -/
def spec_gasto (intern ruido : ℚ) : ℚ := 50 * intern + ruido

/-- Following the spec: `high_complexity_procedures = gdp_per_capita/300 + 2·pct_elderly`. -/
def spec_alta_complexidade (pib pct : ℚ) : ℚ := pib / 300 + 2 * pct

/-! ### Concrete inputs used by counterexamples and witnesses -/

/-- Raw draws realising the spec's example record: `populacao_total = 50000`
(raw 40000) and `populacao_60_mais = 10000` (raw 9000). -/
def exemplo_draws : RawDraws where
  populacao_total := fun _ => 40000
  populacao_60_mais := fun _ => 9000
  pib_per_capita := fun _ => 0
  idh := fun _ => 0
  regiao := fun _ => 0
  densidade_demografica := fun _ => 0
  ruido_internacoes := fun _ => 0
  ruido_procedimentos := fun _ => 0
  ruido_gasto := fun _ => 0

/-- The spec's example record, produced by the generator itself. -/
def exemplo_municipio : Municipio := registro exemplo_draws 0

/-- Raw draws on which the generator's independent sampling of the two
population columns backfires: every row gets `populacao_total = 10000`
(the draws' minimum) and `populacao_60_mais = 149999` (their maximum). -/
def contraexemplo_draws : RawDraws where
  populacao_total := fun _ => 0
  populacao_60_mais := fun _ => 148999
  pib_per_capita := fun _ => 0
  idh := fun _ => 0
  regiao := fun _ => 0
  densidade_demografica := fun _ => 0
  ruido_internacoes := fun _ => 0
  ruido_procedimentos := fun _ => 0
  ruido_gasto := fun _ => 0

/-- A sample row with `percentual_idosos = 1` and zero hospitalizations. -/
def amostra_a : Municipio where
  codigo_ibge := 1
  municipio := "A"
  populacao_total := 30000
  populacao_60_mais := 300
  pib_per_capita := 20000
  idh := 1
  regiao := .Norte
  densidade_demografica := 100
  percentual_idosos := 1
  internacoes_por_1000 := 0
  procedimentos_por_1000 := 0
  gasto_internacao_per_capita := 0
  procedimentos_alta_complexidade := 0

/-- A sample row with `percentual_idosos = 2` and 5 hospitalizations per 1000. -/
def amostra_b : Municipio where
  codigo_ibge := 2
  municipio := "B"
  populacao_total := 40000
  populacao_60_mais := 800
  pib_per_capita := 20000
  idh := 1
  regiao := .Norte
  densidade_demografica := 100
  percentual_idosos := 2
  internacoes_por_1000 := 5
  procedimentos_por_1000 := 0
  gasto_internacao_per_capita := 0
  procedimentos_alta_complexidade := 0

/-- A sample row with `percentual_idosos = 3`. -/
def amostra_c : Municipio where
  codigo_ibge := 3
  municipio := "C"
  populacao_total := 50000
  populacao_60_mais := 1500
  pib_per_capita := 20000
  idh := 1
  regiao := .Norte
  densidade_demografica := 100
  percentual_idosos := 3
  internacoes_por_1000 := 7
  procedimentos_por_1000 := 0
  gasto_internacao_per_capita := 0
  procedimentos_alta_complexidade := 0

/-- A two-row filtered set whose bottom cohort has mean 0 hospitalizations
while the top cohort does not. -/
def filtrado_duas : List Municipio :=
  df_filtrado [amostra_a, amostra_b] [Regiao.Norte] (0, 100) (0, 100000)

/-- A one-row filtered set (the region and range filters select a single
municipality). -/
def filtrado_uma : List Municipio :=
  df_filtrado [amostra_c] [Regiao.Norte] (0, 100) (0, 100000)

/-! ## Theorems -/

/-- C4: the filter stage returns exactly the records satisfying the
conjunction of the region-membership predicate and the two inclusive numeric
range predicates, and the result is a sublist of the source (result order =
source order restricted to matches). -/
theorem df_filtrado_exato (df : List Municipio) (regioes : List Regiao)
    (faixa_idosos faixa_pib : ℚ × ℚ) :
    (∀ m, m ∈ df_filtrado df regioes faixa_idosos faixa_pib ↔
      m ∈ df ∧ m.regiao ∈ regioes ∧
      faixa_idosos.1 ≤ m.percentual_idosos ∧
      m.percentual_idosos ≤ faixa_idosos.2 ∧
      faixa_pib.1 ≤ m.pib_per_capita ∧
      m.pib_per_capita ≤ faixa_pib.2) ∧
    (df_filtrado df regioes faixa_idosos faixa_pib).Sublist df ∧
    (∀ m, (df_filtrado df regioes faixa_idosos faixa_pib).count m =
      if passaFiltro regioes faixa_idosos faixa_pib m then df.count m else 0) := by
  refine ⟨?_, List.filter_sublist df, ?_⟩
  · intro m
    simp [df_filtrado, passaFiltro, List.mem_filter, and_assoc]
  · intro m
    by_cases hm : passaFiltro regioes faixa_idosos faixa_pib m = true
    · rw [if_pos hm]
      exact List.count_filter hm
    · rw [if_neg hm, List.count_eq_zero]
      intro hmem
      exact hm (List.mem_filter.mp hmem).2

/-- C8: filtering an already-filtered list with the same predicate set
returns it unchanged. -/
theorem df_filtrado_idempotente (df : List Municipio) (regioes : List Regiao)
    (faixa_idosos faixa_pib : ℚ × ℚ) :
    df_filtrado (df_filtrado df regioes faixa_idosos faixa_pib) regioes
        faixa_idosos faixa_pib =
      df_filtrado df regioes faixa_idosos faixa_pib := by
  simp [df_filtrado, List.filter_filter]

/-- C9: the `pd.cut` boundary convention is left-open/right-closed at every
breakpoint: 20000 is Pequeno, 100000 is Médio, 500000 is Grande. -/
theorem porte_fronteiras :
    porte 20000 = some .Pequeno ∧ porte 100000 = some .Medio ∧
    porte 500000 = some .Grande := by
  decide

/-- C2: each derived column equals the spec's formula, with the stated
weights and the noise terms scaled by the stated standard deviations
(10, 20, 100). -/
theorem colunas_derivadas_conforme_spec (d : RawDraws) (i : ℕ) :
    (registro d i).percentual_idosos =
      spec_percentual ((registro d i).populacao_60_mais : ℚ)
        ((registro d i).populacao_total : ℚ) ∧
    (registro d i).internacoes_por_1000 =
      spec_internacoes (registro d i).percentual_idosos
        (registro d i).pib_per_capita (normalVal 10 (d.ruido_internacoes i)) ∧
    (registro d i).procedimentos_por_1000 =
      spec_procedimentos (registro d i).pib_per_capita
        (registro d i).percentual_idosos (normalVal 20 (d.ruido_procedimentos i)) ∧
    (registro d i).gasto_internacao_per_capita =
      spec_gasto (registro d i).internacoes_por_1000
        (normalVal 100 (d.ruido_gasto i)) ∧
    (registro d i).procedimentos_alta_complexidade =
      spec_alta_complexidade (registro d i).pib_per_capita
        (registro d i).percentual_idosos := by
  dsimp [registro, spec_percentual, spec_internacoes, spec_procedimentos,
    spec_gasto, spec_alta_complexidade]
  refine ⟨by ring, by ring, by ring, by ring, by ring⟩

/-- C1 counterexample: the generator draws `populacao_60_mais` independently
of `populacao_total`, so a record of the generated dataset can have more
elderly residents than residents, and `percentual_idosos` above 100. -/
theorem contraexemplo_idosos_excedem_populacao :
    (registro contraexemplo_draws 0).populacao_total <
      (registro contraexemplo_draws 0).populacao_60_mais ∧
    100 < (registro contraexemplo_draws 0).percentual_idosos ∧
    registro contraexemplo_draws 0 ∈
      carregar_dados_completos n_municipios contraexemplo_draws := by
  refine ⟨?_, ?_, ?_⟩
  · decide
  · dsimp [registro, contraexemplo_draws, randintVal]
    norm_num
  · exact List.mem_map.mpr ⟨0, List.mem_range.mpr (by norm_num [n_municipios]), rfl⟩

/-- C1 amended: the independently drawn columns satisfy only their own draw
ranges — `1000 ≤ populacao_60_mais ≤ 149999`, `10000 ≤ populacao_total ≤
799999` — hence `percentual_idosos` is positive and below 1500, but neither
`populacao_60_mais ≤ populacao_total` nor `percentual_idosos ≤ 100` holds in
general. -/
theorem limites_registro (d : RawDraws) (i : ℕ) :
    1000 ≤ (registro d i).populacao_60_mais ∧
    (registro d i).populacao_60_mais ≤ 149999 ∧
    10000 ≤ (registro d i).populacao_total ∧
    (registro d i).populacao_total ≤ 799999 ∧
    0 < (registro d i).percentual_idosos ∧
    (registro d i).percentual_idosos < 1500 := by
  dsimp [registro, randintVal]
  have h60 : d.populacao_60_mais i % 149000 < 149000 :=
    Nat.mod_lt _ (by norm_num)
  have hpt : d.populacao_total i % 790000 < 790000 :=
    Nat.mod_lt _ (by norm_num)
  have hq60 : (1000 : ℚ) ≤ ((1000 + d.populacao_60_mais i % 149000 : ℕ) : ℚ) := by
    exact_mod_cast Nat.le_add_right 1000 _
  have hq60u : ((1000 + d.populacao_60_mais i % 149000 : ℕ) : ℚ) ≤ 149999 := by
    exact_mod_cast Nat.le_of_lt_succ (by omega)
  have hqpt : (10000 : ℚ) ≤ ((10000 + d.populacao_total i % 790000 : ℕ) : ℚ) := by
    exact_mod_cast Nat.le_add_right 10000 _
  have hqptu : ((10000 + d.populacao_total i % 790000 : ℕ) : ℚ) ≤ 799999 := by
    exact_mod_cast Nat.le_of_lt_succ (by omega)
  refine ⟨by omega, by omega, by omega, by omega, ?_, ?_⟩
  · have hnum : (0 : ℚ) < ((1000 + d.populacao_60_mais i % 149000 : ℕ) : ℚ) := by
      linarith
    have hden : (0 : ℚ) < ((10000 + d.populacao_total i % 790000 : ℕ) : ℚ) := by
      linarith
    positivity
  · set a : ℚ := ((1000 + d.populacao_60_mais i % 149000 : ℕ) : ℚ) with ha
    set b : ℚ := ((10000 + d.populacao_total i % 790000 : ℕ) : ℚ) with hb
    have hbpos : (0 : ℚ) < b := by rw [hb]; linarith
    have hab : a < 15 * b := by
      have : a ≤ 149999 := hq60u
      nlinarith
    have hdiv : a / b < 15 := (div_lt_iff₀ hbpos).mpr (by linarith)
    calc a / b * 100 < 15 * 100 := by nlinarith [hdiv]
    _ = 1500 := by norm_num

/-- C3: the dataset is a deterministic function of the raw random stream a
fixed seed produces: two runs whose streams agree on the `9·n` consumed
positions yield identical datasets, and the stream is consumed in blocks in
the program's draw order (populacao_total, populacao_60_mais,
pib_per_capita, idh, regiao, densidade_demografica, then the three noise
columns). -/
theorem gerador_deterministico (s₁ s₂ : ℕ → ℚ)
    (h : ∀ k, k < 9 * n_municipios → s₁ k = s₂ k) :
    carregar_stream n_municipios s₁ = carregar_stream n_municipios s₂ ∧
    (∀ i, i < n_municipios →
      (registro (rawOfStream n_municipios s₁) i).populacao_total =
        randintVal 10000 800000 (ratToNat (s₁ i)) ∧
      (registro (rawOfStream n_municipios s₁) i).populacao_60_mais =
        randintVal 1000 150000 (ratToNat (s₁ (n_municipios + i))) ∧
      (registro (rawOfStream n_municipios s₁) i).pib_per_capita =
        uniformVal 8000 45000 (s₁ (2 * n_municipios + i)) ∧
      (registro (rawOfStream n_municipios s₁) i).idh =
        uniformVal (1/2) (9/10) (s₁ (3 * n_municipios + i)) ∧
      (registro (rawOfStream n_municipios s₁) i).regiao =
        regiaoOfNat (ratToNat (s₁ (4 * n_municipios + i))) ∧
      (registro (rawOfStream n_municipios s₁) i).densidade_demografica =
        uniformVal 10 500 (s₁ (5 * n_municipios + i)) ∧
      (registro (rawOfStream n_municipios s₁) i).internacoes_por_1000 =
        (registro (rawOfStream n_municipios s₁) i).percentual_idosos * 2 +
          normalVal 10 (s₁ (6 * n_municipios + i)) +
          (registro (rawOfStream n_municipios s₁) i).pib_per_capita / 1000 ∧
      (registro (rawOfStream n_municipios s₁) i).procedimentos_por_1000 =
        (registro (rawOfStream n_municipios s₁) i).pib_per_capita / 200 +
          normalVal 20 (s₁ (7 * n_municipios + i)) +
          (registro (rawOfStream n_municipios s₁) i).percentual_idosos * (3/2) ∧
      (registro (rawOfStream n_municipios s₁) i).gasto_internacao_per_capita =
        (registro (rawOfStream n_municipios s₁) i).internacoes_por_1000 * 50 +
          normalVal 100 (s₁ (8 * n_municipios + i))) := by
  constructor
  · unfold carregar_stream carregar_dados_completos
    refine List.map_congr_left ?_
    intro i hi
    rw [List.mem_range] at hi
    simp only [n_municipios] at hi
    have h0 : s₁ i = s₂ i := h i (by simp only [n_municipios]; omega)
    have h1 : s₁ (n_municipios + i) = s₂ (n_municipios + i) :=
      h _ (by simp only [n_municipios]; omega)
    have h2 : s₁ (2 * n_municipios + i) = s₂ (2 * n_municipios + i) :=
      h _ (by simp only [n_municipios]; omega)
    have h3 : s₁ (3 * n_municipios + i) = s₂ (3 * n_municipios + i) :=
      h _ (by simp only [n_municipios]; omega)
    have h4 : s₁ (4 * n_municipios + i) = s₂ (4 * n_municipios + i) :=
      h _ (by simp only [n_municipios]; omega)
    have h5 : s₁ (5 * n_municipios + i) = s₂ (5 * n_municipios + i) :=
      h _ (by simp only [n_municipios]; omega)
    have h6 : s₁ (6 * n_municipios + i) = s₂ (6 * n_municipios + i) :=
      h _ (by simp only [n_municipios]; omega)
    have h7 : s₁ (7 * n_municipios + i) = s₂ (7 * n_municipios + i) :=
      h _ (by simp only [n_municipios]; omega)
    have h8 : s₁ (8 * n_municipios + i) = s₂ (8 * n_municipios + i) :=
      h _ (by simp only [n_municipios]; omega)
    dsimp [registro, rawOfStream]
    rw [h0, h1, h2, h3, h4, h5, h6, h7, h8]
  · intro i _
    refine ⟨rfl, rfl, rfl, rfl, rfl, rfl, rfl, rfl, rfl⟩

/-- Witness for C3 at a concrete stream. -/
theorem gerador_deterministico_witness :
    carregar_stream n_municipios (fun _ => 0) =
      carregar_stream n_municipios (fun _ => 0) :=
  (gerador_deterministico (fun _ => 0) (fun _ => 0) (fun _ _ => rfl)).1

/-- C6: for every positive population the size-bucket classification is
total, each bucket is characterised by its left-open/right-closed interval,
a population of exactly 50000 is Médio, and the spec's example record
(population 50000, 10000 elderly) gets `percentual_idosos = 20` and bucket
Médio. -/
theorem porte_classificacao :
    (∀ pt : ℕ, 0 < pt →
      (porte pt).isSome = true ∧
      (porte pt = some .Pequeno ↔ pt ≤ 20000) ∧
      (porte pt = some .Medio ↔ 20000 < pt ∧ pt ≤ 100000) ∧
      (porte pt = some .Grande ↔ 100000 < pt ∧ pt ≤ 500000) ∧
      (porte pt = some .Metropole ↔ 500000 < pt)) ∧
    porte 50000 = some .Medio ∧
    exemplo_municipio.populacao_total = 50000 ∧
    exemplo_municipio.percentual_idosos = 20 ∧
    porte exemplo_municipio.populacao_total = some .Medio := by
  refine ⟨?_, by decide, by decide, ?_, by decide⟩
  · intro pt hpt
    unfold porte
    refine ⟨?_, ?_, ?_, ?_, ?_⟩ <;> split_ifs <;> simp_all <;> omega
  · dsimp [exemplo_municipio, registro, exemplo_draws, randintVal]
    norm_num

/-- Witness for C6 at population 50000. -/
theorem porte_classificacao_witness :
    0 < 50000 ∧ (porte 50000 = some Porte.Medio ↔ 20000 < 50000 ∧ 50000 ≤ 100000) :=
  ⟨by decide, (porte_classificacao.1 50000 (by decide)).2.2.1⟩

/-! ### Helper lemmas for the quantile cohorts -/

lemma sortQ_perm (l : List ℚ) : (sortQ l).Perm l :=
  List.perm_insertionSort _ l

lemma sortQ_sorted (l : List ℚ) : (sortQ l).Sorted (fun a b => a ≤ b) :=
  List.sorted_insertionSort _ l

lemma getD_mem_of_lt (s : List ℚ) (j : ℕ) (hj : j < s.length) (d : ℚ) :
    s.getD j d ∈ s := by
  rw [List.getD_eq_getElem?_getD, List.getElem?_eq_getElem hj]
  exact List.getElem_mem hj

lemma quantileQ_bounds (p : ℚ) (l : List ℚ) (hl : l ≠ []) (hp0 : 0 ≤ p)
    (hp1 : p ≤ 1) :
    (∀ b, (∀ x ∈ l, x ≤ b) → quantileQ p l ≤ b) ∧
    (∀ a, (∀ x ∈ l, a ≤ x) → a ≤ quantileQ p l) := by
  have hperm : (sortQ l).Perm l := sortQ_perm l
  have hsort : (sortQ l).Sorted (fun a b => a ≤ b) := sortQ_sorted l
  set s := sortQ l with hs
  have hsl : s.length = l.length := hperm.length_eq
  have hn : 1 ≤ s.length := by
    rw [hsl]
    rcases l with _ | ⟨x, xs⟩
    · exact absurd rfl hl
    · simp
  set h := p * ((s.length - 1 : ℕ) : ℚ) with hh
  have hh0 : 0 ≤ h := mul_nonneg hp0 (Nat.cast_nonneg _)
  have hh1 : h ≤ ((s.length - 1 : ℕ) : ℚ) :=
    mul_le_of_le_one_left (Nat.cast_nonneg _) hp1
  set j := (Int.floor h).toNat with hj
  have hfl0 : (0 : ℤ) ≤ Int.floor h := Int.floor_nonneg.mpr hh0
  have hjz : ((j : ℤ) : ℚ) = ((Int.floor h : ℤ) : ℚ) := by
    rw [hj, Int.toNat_of_nonneg hfl0]
  have hjq : (j : ℚ) ≤ h := by
    have := Int.floor_le h
    push_cast at hjz ⊢
    rw [hjz]
    exact this
  have hjlt : h < (j : ℚ) + 1 := by
    have := Int.lt_floor_add_one h
    push_cast at hjz ⊢
    rw [hjz]
    exact this
  have hjn : j < s.length := by
    have h1 : (j : ℚ) ≤ ((s.length - 1 : ℕ) : ℚ) := le_trans hjq hh1
    have h2 : j ≤ s.length - 1 := by exact_mod_cast h1
    omega
  set g := h - (j : ℚ) with hg
  have hg0 : 0 ≤ g := by rw [hg]; linarith
  have hg1 : g ≤ 1 := by rw [hg]; linarith
  set vj := s.getD j 0 with hvj
  set vj1 := s.getD (j + 1) vj with hvj1
  have hvjmem : vj ∈ l := hperm.mem_iff.mp (getD_mem_of_lt s j hjn 0)
  have hquant : quantileQ p l = vj + g * (vj1 - vj) := rfl
  constructor
  · intro b hb
    rw [hquant]
    by_cases hj1 : j + 1 < s.length
    · have hvj1mem : vj1 ∈ l := hperm.mem_iff.mp (getD_mem_of_lt s (j + 1) hj1 vj)
      have hle : vj ≤ vj1 := by
        have := hsort.rel_get_of_lt
          (a := ⟨j, hjn⟩) (b := ⟨j + 1, hj1⟩) (by simp)
        simpa [hvj, hvj1, List.getD_eq_getElem?_getD,
          List.getElem?_eq_getElem hjn, List.getElem?_eq_getElem hj1,
          List.get_eq_getElem] using this
      have hb1 : vj1 ≤ b := hb _ hvj1mem
      have : g * (vj1 - vj) ≤ vj1 - vj :=
        mul_le_of_le_one_left (by linarith) hg1
      linarith
    · have : vj1 = vj := by
        rw [hvj1, List.getD_eq_getElem?_getD, List.getElem?_eq_none (by omega)]
        rfl
      rw [this]
      have := hb _ hvjmem
      linarith
  · intro a ha
    rw [hquant]
    have hvja : a ≤ vj := ha _ hvjmem
    by_cases hj1 : j + 1 < s.length
    · have hle : vj ≤ vj1 := by
        have := hsort.rel_get_of_lt
          (a := ⟨j, hjn⟩) (b := ⟨j + 1, hj1⟩) (by simp)
        simpa [hvj, hvj1, List.getD_eq_getElem?_getD,
          List.getElem?_eq_getElem hjn, List.getElem?_eq_getElem hj1,
          List.get_eq_getElem] using this
      have : 0 ≤ g * (vj1 - vj) := mul_nonneg hg0 (by linarith)
      linarith
    · have : vj1 = vj := by
        rw [hvj1, List.getD_eq_getElem?_getD, List.getElem?_eq_none (by omega)]
        rfl
      rw [this]
      linarith


lemma existe_max_pct (l : List Municipio) (hl : l ≠ []) :
    ∃ m ∈ l, ∀ m2 ∈ l, m2.percentual_idosos ≤ m.percentual_idosos := by
  induction l with
  | nil => exact absurd rfl hl
  | cons mhd tl ih =>
    by_cases htl : tl = []
    · subst htl
      exact ⟨mhd, by simp, by simp⟩
    · obtain ⟨m, hm, hmax⟩ := ih htl
      by_cases hcmp : mhd.percentual_idosos ≤ m.percentual_idosos
      · refine ⟨m, List.mem_cons_of_mem _ hm, ?_⟩
        intro m2 hm2
        rcases List.mem_cons.mp hm2 with h2 | h2
        · rw [h2]; exact hcmp
        · exact hmax m2 h2
      · refine ⟨mhd, List.mem_cons_self _ _, ?_⟩
        intro m2 hm2
        rcases List.mem_cons.mp hm2 with h2 | h2
        · rw [h2]
        · exact le_trans (hmax m2 h2) (le_of_not_le hcmp)

lemma existe_min_pct (l : List Municipio) (hl : l ≠ []) :
    ∃ m ∈ l, ∀ m2 ∈ l, m.percentual_idosos ≤ m2.percentual_idosos := by
  induction l with
  | nil => exact absurd rfl hl
  | cons mhd tl ih =>
    by_cases htl : tl = []
    · subst htl
      exact ⟨mhd, by simp, by simp⟩
    · obtain ⟨m, hm, hmin⟩ := ih htl
      by_cases hcmp : m.percentual_idosos ≤ mhd.percentual_idosos
      · refine ⟨m, List.mem_cons_of_mem _ hm, ?_⟩
        intro m2 hm2
        rcases List.mem_cons.mp hm2 with h2 | h2
        · rw [h2]; exact hcmp
        · exact hmin m2 h2
      · refine ⟨mhd, List.mem_cons_self _ _, ?_⟩
        intro m2 hm2
        rcases List.mem_cons.mp hm2 with h2 | h2
        · rw [h2]
        · exact le_trans (le_of_not_le hcmp) (hmin m2 h2)

lemma map_pct_ne_nil (df : List Municipio) (hdf : df ≠ []) :
    df.map Municipio.percentual_idosos ≠ [] := by
  simpa using hdf

/-- C10: on a nonempty filtered set both quantile cohorts are nonempty; a
record attaining the maximum `percentual_idosos` is in the top cohort
(its value is at or above the 0.75-quantile) and one attaining the minimum
is in the bottom cohort, because the interpolated quantile always lies
within the column's range. -/
theorem extremos_nas_coortes (df : List Municipio) (hdf : df ≠ []) :
    alto_idosos df ≠ [] ∧ baixo_idosos df ≠ [] ∧
    (∀ m ∈ df, (∀ m2 ∈ df, m2.percentual_idosos ≤ m.percentual_idosos) →
      m ∈ alto_idosos df) ∧
    (∀ m ∈ df, (∀ m2 ∈ df, m.percentual_idosos ≤ m2.percentual_idosos) →
      m ∈ baixo_idosos df) := by
  have hmap := map_pct_ne_nil df hdf
  have hq34 := quantileQ_bounds (3/4) (df.map Municipio.percentual_idosos)
    hmap (by norm_num) (by norm_num)
  have hq14 := quantileQ_bounds (1/4) (df.map Municipio.percentual_idosos)
    hmap (by norm_num) (by norm_num)
  have halto : ∀ m ∈ df,
      (∀ m2 ∈ df, m2.percentual_idosos ≤ m.percentual_idosos) →
      m ∈ alto_idosos df := by
    intro m hm hub
    have hub2 : ∀ x ∈ df.map Municipio.percentual_idosos,
        x ≤ m.percentual_idosos := by
      intro x hx
      obtain ⟨m2, hm2, rfl⟩ := List.mem_map.mp hx
      exact hub m2 hm2
    have hle := hq34.1 _ hub2
    refine List.mem_filter.mpr ⟨hm, ?_⟩
    rw [limite_alto, quantilePF, if_neg hmap]
    simpa [PFloat.ble] using hle
  have hbaixo : ∀ m ∈ df,
      (∀ m2 ∈ df, m.percentual_idosos ≤ m2.percentual_idosos) →
      m ∈ baixo_idosos df := by
    intro m hm hlb
    have hlb2 : ∀ x ∈ df.map Municipio.percentual_idosos,
        m.percentual_idosos ≤ x := by
      intro x hx
      obtain ⟨m2, hm2, rfl⟩ := List.mem_map.mp hx
      exact hlb m2 hm2
    have hle := hq14.2 _ hlb2
    refine List.mem_filter.mpr ⟨hm, ?_⟩
    rw [limite_baixo, quantilePF, if_neg hmap]
    simpa [PFloat.ble] using hle
  obtain ⟨mx, hmx, hmax⟩ := existe_max_pct df hdf
  obtain ⟨mn, hmn, hmin⟩ := existe_min_pct df hdf
  exact ⟨List.ne_nil_of_mem (halto mx hmx hmax),
    List.ne_nil_of_mem (hbaixo mn hmn hmin), halto, hbaixo⟩


lemma meanPF_cases (l : List ℚ) : meanPF l = .nan ∨ ∃ x, meanPF l = .num x := by
  unfold meanPF
  split_ifs
  · exact Or.inl rfl
  · exact Or.inr ⟨_, rfl⟩

lemma razao_nan_iff (df : List Municipio)
    (hb : media_internacoes_baixo df = .num 0) :
    razao_internacoes df = .nan ↔
      media_internacoes_alto df = .num 0 ∨ media_internacoes_alto df = .nan := by
  rcases meanPF_cases ((alto_idosos df).map Municipio.internacoes_por_1000)
    with hA | ⟨x, hA⟩
  · have hA2 : media_internacoes_alto df = .nan := hA
    rw [razao_internacoes, hA2, hb]
    simp [PFloat.div]
  · have hA2 : media_internacoes_alto df = .num x := hA
    rw [razao_internacoes, hA2, hb]
    by_cases hx : x = 0
    · subst hx
      simp [PFloat.div]
    · simp only [PFloat.div, if_pos rfl, if_neg hx]
      split_ifs <;> simp [hx]

/-- C7 amended: the two cohorts are disjoint whenever the 0.25-quantile is
strictly below the 0.75-quantile (with equal quantiles — e.g. a single row —
a row can fall in both cohorts); and with a zero bottom-cohort mean the
top/bottom ratio is the NaN sentinel exactly when the top-cohort mean is
zero or itself NaN — a nonzero top mean gives a signed infinity instead. -/
theorem coortes_quartis (df : List Municipio) :
    (PFloat.blt (limite_baixo df) (limite_alto df) = true →
      ∀ m ∈ alto_idosos df, m ∉ baixo_idosos df) ∧
    (media_internacoes_baixo df = .num 0 →
      (razao_internacoes df = .nan ↔
        media_internacoes_alto df = .num 0 ∨ media_internacoes_alto df = .nan)) := by
  constructor
  · intro hlt m hma hmb
    by_cases hmap : df.map Municipio.percentual_idosos = []
    · rw [limite_baixo, quantilePF, if_pos hmap] at hlt
      simp [PFloat.blt] at hlt
    · rw [limite_baixo, quantilePF, if_neg hmap, limite_alto, quantilePF,
        if_neg hmap] at hlt
      simp only [PFloat.blt, decide_eq_true_eq] at hlt
      have hA := (List.mem_filter.mp hma).2
      have hB := (List.mem_filter.mp hmb).2
      rw [limite_alto, quantilePF, if_neg hmap] at hA
      rw [limite_baixo, quantilePF, if_neg hmap] at hB
      simp only [PFloat.ble, decide_eq_true_eq] at hA hB
      linarith
  · exact razao_nan_iff df

-- concrete evaluation lemmas
lemma filtrado_duas_eq : filtrado_duas = [amostra_a, amostra_b] := by decide

lemma filtrado_uma_eq : filtrado_uma = [amostra_c] := by decide

lemma limite_baixo_duas : limite_baixo [amostra_a, amostra_b] = .num (5/4) := by
  rw [limite_baixo, quantilePF, if_neg (by simp)]
  norm_num [quantileQ, sortQ, List.insertionSort, List.orderedInsert,
    amostra_a, amostra_b, List.getD]

lemma limite_alto_duas : limite_alto [amostra_a, amostra_b] = .num (7/4) := by
  rw [limite_alto, quantilePF, if_neg (by simp)]
  norm_num [quantileQ, sortQ, List.insertionSort, List.orderedInsert,
    amostra_a, amostra_b, List.getD]


lemma baixo_idosos_duas : baixo_idosos [amostra_a, amostra_b] = [amostra_a] := by
  have ha : PFloat.ble (.num amostra_a.percentual_idosos) (.num (5/4)) = true := by
    simp [PFloat.ble, amostra_a]
    norm_num
  have hb : PFloat.ble (.num amostra_b.percentual_idosos) (.num (5/4)) = false := by
    simp [PFloat.ble, amostra_b]
    norm_num
  rw [baixo_idosos, limite_baixo_duas]
  simp [List.filter, ha, hb]

lemma alto_idosos_duas : alto_idosos [amostra_a, amostra_b] = [amostra_b] := by
  have ha : PFloat.ble (.num (7/4)) (.num amostra_a.percentual_idosos) = false := by
    simp [PFloat.ble, amostra_a]
    norm_num
  have hb : PFloat.ble (.num (7/4)) (.num amostra_b.percentual_idosos) = true := by
    simp [PFloat.ble, amostra_b]
    norm_num
  rw [alto_idosos, limite_alto_duas]
  simp [List.filter, ha, hb]

lemma media_baixo_duas : media_internacoes_baixo [amostra_a, amostra_b] = .num 0 := by
  rw [media_internacoes_baixo, baixo_idosos_duas]
  simp [meanPF, amostra_a]

lemma media_alto_duas : media_internacoes_alto [amostra_a, amostra_b] = .num 5 := by
  rw [media_internacoes_alto, alto_idosos_duas]
  simp [meanPF, amostra_b]

lemma razao_duas : razao_internacoes [amostra_a, amostra_b] = .posinf := by
  rw [razao_internacoes, media_alto_duas, media_baixo_duas]
  norm_num [PFloat.div]

lemma limite_alto_uma : limite_alto [amostra_c] = .num 3 := by
  rw [limite_alto, quantilePF, if_neg (by simp)]
  norm_num [quantileQ, sortQ, List.insertionSort, List.orderedInsert,
    amostra_c, List.getD]

lemma limite_baixo_uma : limite_baixo [amostra_c] = .num 3 := by
  rw [limite_baixo, quantilePF, if_neg (by simp)]
  norm_num [quantileQ, sortQ, List.insertionSort, List.orderedInsert,
    amostra_c, List.getD]

lemma ambas_coortes_uma :
    amostra_c ∈ alto_idosos [amostra_c] ∧ amostra_c ∈ baixo_idosos [amostra_c] := by
  constructor
  · rw [alto_idosos, limite_alto_uma]
    refine List.mem_filter.mpr ⟨by simp, ?_⟩
    simp [PFloat.ble, amostra_c]
  · rw [baixo_idosos, limite_baixo_uma]
    refine List.mem_filter.mpr ⟨by simp, ?_⟩
    simp [PFloat.ble, amostra_c]


/-- C5 amended: on an empty filtered set the mean, the Pearson correlation
and the top/bottom ratio are the NaN sentinel and no operation fails; a
correlation over fewer than 2 rows or with a zero-variance column is NaN;
but a zero bottom-cohort mean makes the ratio NaN only when the top-cohort
mean is zero or NaN as well — otherwise the ratio is a signed infinity, not
the undefined-metric sentinel. -/
theorem metricas_indefinidas (df : List Municipio) (regioes : List Regiao)
    (faixa_idosos faixa_pib : ℚ × ℚ) :
    (df_filtrado df regioes faixa_idosos faixa_pib = [] →
      meanPF ((df_filtrado df regioes faixa_idosos faixa_pib).map
        Municipio.internacoes_por_1000) = .nan ∧
      correlacao
        ((df_filtrado df regioes faixa_idosos faixa_pib).map
          Municipio.percentual_idosos)
        ((df_filtrado df regioes faixa_idosos faixa_pib).map
          Municipio.internacoes_por_1000) = none ∧
      razao_internacoes (df_filtrado df regioes faixa_idosos faixa_pib) = .nan) ∧
    (∀ xs ys : List ℚ,
      xs.length < 2 ∨ somaQuadDesvios xs = 0 ∨ somaQuadDesvios ys = 0 →
      correlacao xs ys = none) ∧
    (media_internacoes_baixo (df_filtrado df regioes faixa_idosos faixa_pib) =
        .num 0 →
      (razao_internacoes (df_filtrado df regioes faixa_idosos faixa_pib) =
          .nan ↔
        media_internacoes_alto (df_filtrado df regioes faixa_idosos faixa_pib) =
          .num 0 ∨
        media_internacoes_alto (df_filtrado df regioes faixa_idosos faixa_pib) =
          .nan)) := by
  refine ⟨?_, ?_, razao_nan_iff _⟩
  · intro he
    rw [he]
    refine ⟨by simp [meanPF], by simp [correlacao], ?_⟩
    simp [razao_internacoes, media_internacoes_alto, media_internacoes_baixo,
      alto_idosos, baixo_idosos, meanPF, PFloat.div]
  · intro xs ys hcond
    rw [correlacao, if_pos hcond]

/-- C5 counterexample: a filtered set whose bottom cohort has mean 0
hospitalizations while the top cohort does not; the reported ratio is
`+inf`, a signed infinity, not the NaN ("not applicable") sentinel. -/
theorem contraexemplo_razao_infinita :
    media_internacoes_baixo filtrado_duas = .num 0 ∧
    razao_internacoes filtrado_duas = .posinf ∧
    razao_internacoes filtrado_duas ≠ .nan := by
  rw [filtrado_duas_eq]
  refine ⟨media_baixo_duas, razao_duas, ?_⟩
  rw [razao_duas]
  simp

/-- Witness for C5 (amended) at an empty filtered set, a concrete
one-element correlation input, and a filtered set with a zero bottom-cohort
mean. -/
theorem metricas_indefinidas_witness :
    (df_filtrado ([] : List Municipio) [] (0, 0) (0, 0) = [] ∧
      razao_internacoes (df_filtrado ([] : List Municipio) [] (0, 0) (0, 0)) =
        .nan) ∧
    correlacao [1] [2] = none ∧
    (media_internacoes_baixo
        (df_filtrado [amostra_a, amostra_b] [Regiao.Norte] (0, 100) (0, 100000)) =
      .num 0 ∧
      (razao_internacoes
          (df_filtrado [amostra_a, amostra_b] [Regiao.Norte] (0, 100)
            (0, 100000)) = .nan ↔
        media_internacoes_alto
            (df_filtrado [amostra_a, amostra_b] [Regiao.Norte] (0, 100)
              (0, 100000)) = .num 0 ∨
        media_internacoes_alto
            (df_filtrado [amostra_a, amostra_b] [Regiao.Norte] (0, 100)
              (0, 100000)) = .nan)) := by
  have hz : media_internacoes_baixo
      (df_filtrado [amostra_a, amostra_b] [Regiao.Norte] (0, 100) (0, 100000)) =
      .num 0 := by
    have h2 : media_internacoes_baixo filtrado_duas = .num 0 := by
      rw [filtrado_duas_eq]
      exact media_baixo_duas
    exact h2
  refine ⟨⟨rfl, ?_⟩, ?_, hz, ?_⟩
  · exact ((metricas_indefinidas [] [] (0, 0) (0, 0)).1 rfl).2.2
  · exact (metricas_indefinidas [] [] (0, 0) (0, 0)).2.1 [1] [2]
      (Or.inl (by norm_num))
  · exact (metricas_indefinidas [amostra_a, amostra_b] [Regiao.Norte] (0, 100)
      (0, 100000)).2.2 hz

/-- C7 counterexample: on a one-row filtered set the 0.25- and 0.75-quantiles
coincide, so the row belongs to both cohorts — they are not disjoint; and a
zero bottom-cohort mean yields the ratio `+inf`, not an undefined value. -/
theorem contraexemplo_coortes :
    (amostra_c ∈ alto_idosos filtrado_uma ∧
      amostra_c ∈ baixo_idosos filtrado_uma) ∧
    media_internacoes_baixo filtrado_duas = .num 0 ∧
    razao_internacoes filtrado_duas = .posinf := by
  have h1 := ambas_coortes_uma
  rw [← filtrado_uma_eq] at h1
  rw [filtrado_duas_eq]
  exact ⟨h1, media_baixo_duas, razao_duas⟩

/-- Witness for C7 (amended) at a concrete two-row filtered set with
distinct quantiles and a zero bottom-cohort mean. -/
theorem coortes_quartis_witness :
    (PFloat.blt (limite_baixo [amostra_a, amostra_b])
        (limite_alto [amostra_a, amostra_b]) = true ∧
      amostra_b ∉ baixo_idosos [amostra_a, amostra_b]) ∧
    (media_internacoes_baixo [amostra_a, amostra_b] = .num 0 ∧
      (razao_internacoes [amostra_a, amostra_b] = .nan ↔
        media_internacoes_alto [amostra_a, amostra_b] = .num 0 ∨
        media_internacoes_alto [amostra_a, amostra_b] = .nan)) := by
  have hblt : PFloat.blt (limite_baixo [amostra_a, amostra_b])
      (limite_alto [amostra_a, amostra_b]) = true := by
    rw [limite_baixo_duas, limite_alto_duas]
    simp [PFloat.blt]
    norm_num
  have hmem : amostra_b ∈ alto_idosos [amostra_a, amostra_b] := by
    rw [alto_idosos_duas]
    simp
  exact ⟨⟨hblt, (coortes_quartis [amostra_a, amostra_b]).1 hblt amostra_b hmem⟩,
    media_baixo_duas, (coortes_quartis [amostra_a, amostra_b]).2 media_baixo_duas⟩

/-- Witness for C10 at a concrete one-row set. -/
theorem extremos_nas_coortes_witness :
    ([amostra_c] : List Municipio) ≠ [] ∧ alto_idosos [amostra_c] ≠ [] :=
  ⟨by simp, (extremos_nas_coortes [amostra_c] (by simp)).1⟩

end SaudeMunicipal

